import Mathlib

/-!
Shallow embedding of the LegalMind frontend (TypeScript/React) core logic:
the chat transcript manager (`src/pages/Chat.tsx`), the upload/poll
orchestrator (upload page), the dashboard statistics
(`src/lib/api/stats.ts`) and the backend API helpers
(`src/lib/api/legalBackend.ts`).

Conventions of the embedding:
- JavaScript strings are modelled as Lean `String`; `slice(0, n)` /
  `includes` are modelled on the underlying character list (the sources
  only ever apply them to plain text).
- JavaScript numbers holding scores and sizes are modelled as `Int` / `Nat`.
- `undefined` / `null` fields are modelled as `Option`.
- Promise rejection (exceptions) is modelled with `Except String`.
- React `setState` effects are modelled by explicit state passing; the
  timer/cancellation behaviour of the polling `useEffect` is modelled as a
  small labelled transition system consuming scheduler events.
-/

namespace LegalMind

/-- The apostrophe character, used in the summary marker phrase. -/
def apos : String := String.singleton (Char.ofNat 39)

/-- Test that `haystack` starts with `needle` (on character lists). -/
def leadsWith : List Char → List Char → Bool
  | [], _ => true
  | _ :: _, [] => false
  | a :: as, b :: bs => a == b && leadsWith as bs

/-- Contiguous-substring test on character lists, JS `String.includes`. -/
def containsSub : List Char → List Char → Bool
  | hay, pat =>
    if leadsWith pat hay then true
    else
      match hay with
      | [] => false
      | _ :: t => containsSub t pat

/-- JS `s.includes(pat)` (both sources only apply it to plain text). -/
def strIncludes (s pat : String) : Bool := containsSub s.data pat.data

/-- JS `s.slice(0, n)` modelled on the character list. -/
def strSlice (s : String) (n : Nat) : String := String.mk (s.data.take n)

/-! ## Risk tier (Chat.tsx lines 123-128) and dashboard stats (stats.ts) -/

/-- From `Chat.tsx`: `details.risk_score > 70 ? "high" : details.risk_score >= 40
? "medium" : "low"`. -/
def riskLevel (risk_score : Int) : String :=
  if risk_score > 70 then "high"
  else if risk_score ≥ 40 then "medium"
  else "low"

/-- The fields of a `DocumentSummary` used by `getDashboardStats`
(`risk_score` may be absent: the code reads `d.risk_score ?? 0`). -/
structure Doc where
  status : String
  risk_score : Option Int
  deriving Repr, DecidableEq

/-- The `DashboardStats` record of `stats.ts`. -/
structure DashboardStats where
  totalDocuments : Nat
  highRiskCount : Nat
  safeCount : Nat
  analyzingCount : Nat
  averageRiskPercentage : Int
  averageSafePercentage : Int
  deriving Repr, DecidableEq

/-- JS `Math.round` for the non-negative scores appearing here:
round half up. -/
def jsRound (q : ℚ) : Int := ⌊q + 1/2⌋

/-- Function `getDashboardStats` of `src/lib/api/stats.ts`, given the documents the
backend returned. -/
def getDashboardStats (docs : List Doc) : DashboardStats :=
  let completedDocs := docs.filter (fun d => d.status == "completed")
  let totalRiskScore : Int := (completedDocs.map (fun d => d.risk_score.getD 0)).sum
  let totalSafeScore : Int := (completedDocs.map (fun d => 100 - d.risk_score.getD 0)).sum
  let averageRiskPercentage : Int :=
    if completedDocs.length > 0 then jsRound ((totalRiskScore : ℚ) / completedDocs.length) else 0
  let averageSafePercentage : Int :=
    if completedDocs.length > 0 then jsRound ((totalSafeScore : ℚ) / completedDocs.length) else 0
  { totalDocuments := docs.length
    highRiskCount := (completedDocs.filter (fun d => d.risk_score.getD 0 > 70)).length
    safeCount := (completedDocs.filter (fun d => d.risk_score.getD 0 < 40)).length
    analyzingCount := (docs.filter (fun d => !(d.status == "completed"))).length
    averageRiskPercentage := averageRiskPercentage
    averageSafePercentage := averageSafePercentage }

/-! ## Chat messages and deduplication (Chat.tsx lines 30-49) -/

/-- Field `Message.role` in `Chat.tsx`: `"user" | "assistant"`. -/
inductive Role where
  | user
  | assistant
  deriving Repr, DecidableEq

/-- The string a `Role` denotes in the TypeScript source. -/
def Role.str : Role → String
  | .user => "user"
  | .assistant => "assistant"

/-- The `Message` interface of `Chat.tsx` (`isReport?` is optional; absent is
modelled as `false`, matching JS truthiness of `undefined`). -/
structure Message where
  id : String
  role : Role
  content : String
  timestamp : String
  isReport : Bool := false
  deriving Repr, DecidableEq

/-- The dedup key of `deduplicateMessages`:
the role string, the separator `::`, and `content.slice(0, 100)`. -/
def dedupKey (m : Message) : String :=
  m.role.str ++ "::" ++ strSlice m.content 100

/-- Recursion of `deduplicateMessages`: `seen` is the set of keys already
kept (the `Map` in the source); a message is kept iff its key is unseen. -/
def dedupGo (seen : List String) : List Message → List Message
  | [] => []
  | m :: rest =>
    if seen.contains (dedupKey m) then dedupGo seen rest
    else m :: dedupGo (dedupKey m :: seen) rest

/-- Function `deduplicateMessages` of `Chat.tsx`: filter keeping the first
occurrence of each `role + first 100 chars of content` key. -/
def deduplicateMessages (msgs : List Message) : List Message :=
  dedupGo [] msgs

/-- Specification-side description (from the spec words): keep the head,
drop later messages agreeing with it on role and first 100 content
characters, recurse. -/
def keepFirstByKey : List Message → List Message
  | [] => []
  | m :: rest =>
    m :: keepFirstByKey (rest.filter (fun x =>
      !(x.role == m.role && x.content.data.take 100 == m.content.data.take 100)))
termination_by msgs => msgs.length
decreasing_by
  simp only [List.length_cons]
  exact Nat.lt_succ_of_le (List.length_filter_le _ _)

/-! ## Summary marker and history filtering (Chat.tsx lines 130, 197-232) -/

/-- The literal marker phrase of the synthetic summary message. -/
def summaryMarker : String := "I" ++ apos ++ "ve analyzed your contract"

/-- The fields of `DocumentDetails` the chat page reads. -/
structure DocumentDetails where
  file_name : String
  risk_score : Int
  risky_chunks : Int
  total_chunks : Int
  deriving Repr, DecidableEq

/-- The templated summary content interpolated in `Chat.tsx` line 130. -/
def summaryText (details : DocumentDetails) : String :=
  summaryMarker ++ " \"" ++ details.file_name ++ "\" and found " ++
    toString details.risky_chunks ++ " risky clauses out of " ++
    toString details.total_chunks ++ " sections. Overall risk score: " ++
    toString details.risk_score ++
    "%. This looks like a **" ++ (riskLevel details.risk_score).toUpper ++
    "** risk agreement. Ask me anything about specific clauses, negotiation levers, or implications."

/-- The `ChatHistoryItem` of `legalBackend.ts`: role + content only. -/
structure ChatHistoryItem where
  role : Role
  content : String
  deriving Repr, DecidableEq

/-- The filter applied before persisting history (`Chat.tsx` lines
204-208 and 220-224): drop report messages and messages containing the
summary marker. -/
def historyFilter (msgs : List Message) : List Message :=
  msgs.filter (fun m => !m.isReport && !(strIncludes m.content summaryMarker))

/-- The role-and-content-only projection persisted to the primary store. -/
def primaryPayload (msgs : List Message) : List ChatHistoryItem :=
  (historyFilter msgs).map (fun m => ⟨m.role, m.content⟩)

/-- Outcome of one run of the debounced `saveHistory` callback. -/
inductive SaveOutcome where
  | savedPrimary (payload : List ChatHistoryItem)
  | savedFallback (payload : List Message)
  | nothingSaved
  deriving Repr, DecidableEq

/-- The `saveHistory` effect body of `Chat.tsx` lines 198-232 (after the
debounce timer fires).  The early-return guard is
`!documentId || !user?.id || messages.length <= 2`; the primary write is
attempted only when the filtered history is non-empty; on a primary-write
rejection the catch writes `messages.filter(...)` — the *unprojected*
filtered messages — to localStorage. -/
def saveHistoryStep (documentId : Option String) (userId : Option String)
    (msgs : List Message) (primaryFails : Bool) : SaveOutcome :=
  if documentId = none ∨ userId = none ∨ msgs.length ≤ 2 then .nothingSaved
  else
    let history := primaryPayload msgs
    if history.length > 0 then
      if primaryFails then .savedFallback (historyFilter msgs)
      else .savedPrimary history
    else .nothingSaved

/-! ## Initial load of the chat view (Chat.tsx lines 95-195) -/

/-- Inputs to one run of the `load` effect in which the three bootstrap
fetches of the `Promise.all` (details, report, suggestions) all succeed.
`historyFetch` is the outcome of `getChatHistory` (consulted only when a
user is signed in); `localStored` is the localStorage payload for the
document together with its `JSON.parse` outcome; `now` stands for
`new Date().toISOString()`. -/
structure LoadInputs where
  documentId : String
  details : DocumentDetails
  report : String
  suggestions : List String
  userId : Option String
  historyFetch : Except String (List ChatHistoryItem)
  localStored : Option (Except String (List Message))
  now : String

/-- The two synthetic bootstrap messages built by `load`: the raw report
tagged `isReport`, then the templated summary. -/
def baseMessages (inp : LoadInputs) : List Message :=
  [{ id := "report-" ++ inp.documentId
     role := .assistant
     content := inp.report
     timestamp := inp.now
     isReport := true },
   { id := "summary-" ++ inp.documentId
     role := .assistant
     content := summaryText inp.details
     timestamp := inp.now
     isReport := false }]

/-- The final `messages` state after `load` completes, starting from the
initial state `[]`.  Mirrors the control flow of lines 139-180: the
`setMessages` call happens only inside the `supabaseHistory.length > 0`
branch and inside the catch handler; when the primary history fetch
succeeds with an empty list, or when no user is signed in, no
`setMessages` call is reached and the initial `[]` remains. -/
def loadMessages (inp : LoadInputs) : List Message :=
  match inp.userId with
  | some _ =>
    match inp.historyFetch with
    | .ok supabaseHistory =>
      if supabaseHistory.length > 0 then
        baseMessages inp ++
          ((supabaseHistory.filter
              (fun msg => !(strIncludes msg.content summaryMarker))).enum.map
            (fun p =>
              { id := "chat-" ++ toString p.1 ++ "-" ++ inp.documentId
                role := p.2.role
                content := p.2.content
                timestamp := inp.now
                isReport := false }))
      else []
    | .error _ =>
      match inp.localStored with
      | some (.ok parsed) =>
        baseMessages inp ++
          ((parsed.filter
              (fun m => !m.isReport && !(strIncludes m.content summaryMarker))).enum.map
            (fun p =>
              { p.2 with id := "local-" ++ toString p.1 ++ "-" ++ inp.documentId }))
      | some (.error _) => baseMessages inp
      | none => baseMessages inp
  | none => []

/-! ## Upload validation and task creation (upload page) -/

/-- The fields of a JS `File` the upload page reads. -/
structure JsFile where
  name : String
  size : Nat
  deriving Repr, DecidableEq

/-- Constant `SUPPORTED_FORMATS = [".pdf"]`. -/
def SUPPORTED_FORMATS : List String := [".pdf"]

/-- Constant `MAX_FILE_SIZE = 20 * 1024 * 1024`. -/
def MAX_FILE_SIZE : Nat := 20 * 1024 * 1024

/-- JS `file.name.split(".").pop()`: the segment after the last dot, the
whole name when it has no dot (JS `split` never yields an empty array). -/
def lastDotSegment (name : String) : String :=
  String.mk ((name.data.reverse.takeWhile (fun c => !(c == Char.ofNat 46))).reverse)

/-- ASCII lowercasing, JS `toLowerCase` on the extensions involved. -/
def jsToLower (s : String) : String := String.mk (s.data.map Char.toLower)

/-- ASCII uppercasing, JS `toUpperCase` on the risk levels involved. -/
def jsToUpper (s : String) : String := String.mk (s.data.map Char.toUpper)

/-- Function `validateFile` of the upload page: `some errorMessage` when invalid,
`none` when the file passes. -/
def validateFile (f : JsFile) : Option String :=
  let ext := "." ++ jsToLower (lastDotSegment f.name)
  if !(SUPPORTED_FORMATS.contains ext) then
    some ("Unsupported format. Please use " ++ String.intercalate ", " SUPPORTED_FORMATS)
  else if f.size > MAX_FILE_SIZE then
    some "File too large. Maximum size is 20MB"
  else none

/-- Job status as reported by the analysis service. -/
inductive JobState where
  | pending
  | processing
  | completed
  | failed
  deriving Repr, DecidableEq

/-- The `result` payload of a job status response (only `document_id` is
read by the poll loop). -/
structure JobResultM where
  document_id : String
  deriving Repr, DecidableEq

/-- The `JobStatusResponse` of `legalBackend.ts` (fields the poll loop reads;
`progress` is `Option` because the code defends with `?? f.progress`). -/
structure JobStatusResponse where
  job_id : String
  status : JobState
  progress : Option Nat
  stage : Option String
  result : Option JobResultM
  error : Option String
  deriving Repr, DecidableEq

/-- The `UploadFile` task record of the upload page. -/
structure UploadFile where
  id : String
  file : JsFile
  progress : Nat
  status : String
  error : Option String
  jobId : Option String := none
  jobStatus : Option JobStatusResponse := none
  deriving Repr, DecidableEq

/-- The task built for one file in `addFiles`: `ts` is the `Date.now()`
value observed while processing it (the source interpolates
the id `Date.now() + "-" + file.name`); validation errors put the
task directly in "error", otherwise "pending". -/
def mkUploadTask (ts : Nat) (f : JsFile) : UploadFile :=
  let error := validateFile f
  { id := toString ts ++ "-" ++ f.name
    file := f
    progress := 0
    status := if error.isSome then "error" else "pending"
    error := error }

/-- The `fileArray.map` of `addFiles`, with the per-file `Date.now()`
reads made explicit as `now i` for the `i`-th file. -/
def addFilesGo (now : Nat → Nat) (i : Nat) : List JsFile → List UploadFile
  | [] => []
  | f :: rest => mkUploadTask (now i) f :: addFilesGo now (i + 1) rest

/-- Function `addFiles`: one task per input file, in input order.  The new tasks
are appended to the existing list by `setFiles(prev => [...prev, ...])`. -/
def addFiles (now : Nat → Nat) (files : List JsFile) : List UploadFile :=
  addFilesGo now 0 files

/-! ## The poll loop (upload page `useEffect`, lines 47-114) -/

/-- JS `a || b` on an optional string: the default is used when the field
is absent or empty (falsy). -/
def jsOrElse (o : Option String) (d : String) : String :=
  match o with
  | some s => if s = "" then d else s
  | none => d

/-- JS truthiness of `status.result?.document_id`: present and
non-empty. -/
def truthyDocId (r : Option JobResultM) : Option String :=
  match r with
  | none => none
  | some jr => if jr.document_id = "" then none else some jr.document_id

/-- Observable effects of one poll tick. -/
inductive Action where
  | setFiles (files : List UploadFile)
  | toastSuccess (title desc : String)
  | toastError (title desc : String)
  | setActiveJob (j : Option String)
  | navigate (path : String)
  deriving Repr, DecidableEq

/-- Whether the tick schedules another tick (`setTimeout(poll, d)`) or
stops. -/
inductive NextStep where
  | stop
  | reschedule (delayMs : Nat)
  deriving Repr, DecidableEq

/-- Result of one poll tick: the task list after the tick, the effects in
program order, and the scheduling decision. -/
structure TickResult where
  files : List UploadFile
  actions : List Action
  next : NextStep
  deriving Repr, DecidableEq

/-- The `setFiles` mapper of the poll success branch. -/
def applyStatus (activeJobId : String) (status : JobStatusResponse)
    (files : List UploadFile) : List UploadFile :=
  files.map (fun f =>
    if f.jobId == some activeJobId then
      { f with
        progress := status.progress.getD f.progress
        status :=
          if status.status == JobState.completed then "complete"
          else if status.status == JobState.failed then "error"
          else "processing"
        jobStatus := some status }
    else f)

/-- Outcome of the awaited `getJobStatus` call: a parsed response, or a
rejection carrying `error?.message`. -/
inductive PollOutcome where
  | success (status : JobStatusResponse)
  | failure (errMessage : Option String)
  deriving Repr, DecidableEq

/-- One execution of the `poll` body after its awaited request resolves,
given the cancellation flag at that moment.  Mirrors lines 52-107: the
`isCancelled` check precedes every mutation in both the try and the catch;
`completed` with a truthy result id stops and navigates; `failed` stops
with a destructive toast using `status.error || fallback`; anything else
reschedules after 2000 ms; a rejection toasts and reschedules after
4000 ms. -/
def pollTick (isCancelled : Bool) (outcome : PollOutcome) (activeJobId : String)
    (files : List UploadFile) : TickResult :=
  match outcome with
  | .success status =>
    if isCancelled then { files := files, actions := [], next := .stop }
    else
      let files' := applyStatus activeJobId status files
      if status.status == JobState.completed && (truthyDocId status.result).isSome then
        { files := files'
          actions := [.setFiles files',
                      .toastSuccess "Analysis complete" "Opening interactive analysis and chat.",
                      .setActiveJob none,
                      .navigate ("/chat/" ++ ((truthyDocId status.result).getD ""))]
          next := .stop }
      else if status.status == JobState.failed then
        { files := files'
          actions := [.setFiles files',
                      .toastError "Analysis failed"
                        (jsOrElse status.error "An error occurred during analysis."),
                      .setActiveJob none]
          next := .stop }
      else
        { files := files'
          actions := [.setFiles files']
          next := .reschedule 2000 }
  | .failure errMessage =>
    if isCancelled then { files := files, actions := [], next := .stop }
    else
      { files := files
        actions := [.toastError "Error"
          (jsOrElse errMessage "Failed to fetch analysis status. Retrying...")]
        next := .reschedule 4000 }

/-- Drive the poll loop (cancellation never set) against a list of
successive request outcomes: returns how many status requests were
issued, the accumulated effects, and whether polling is still active once
the list is exhausted. -/
def runPolling (activeJobId : String) :
    List UploadFile → List PollOutcome → Nat × List Action × Bool
  | _, [] => (0, [], true)
  | files, o :: rest =>
    let r := pollTick false o activeJobId files
    match r.next with
    | .stop => (1, r.actions, false)
    | .reschedule _ =>
      let t := runPolling activeJobId r.files rest
      (t.1 + 1, r.actions ++ t.2.1, t.2.2)

/-! ## Poll-loop lifecycle with cancellation (upload page lines 47-114) -/

/-- State of one instance of the polling `useEffect`: the cancellation
flag, whether a `setTimeout(poll, _)` is pending, whether a
`getJobStatus` request is awaiting its response, and the captured job id
and task list. -/
structure LoopState where
  isCancelled : Bool
  timerPending : Bool
  inFlight : Bool
  activeJobId : String
  files : List UploadFile
  deriving Repr, DecidableEq

/-- Scheduler events delivered to the effect instance. -/
inductive LoopEv where
  | timerFire
  | respond (o : PollOutcome)
  | cancel
  deriving Repr, DecidableEq

/-- Externally observable steps of the poll loop. -/
inductive Obs where
  | request
  | act (a : Action)
  | schedule (delayMs : Nat)
  deriving Repr, DecidableEq

/-- One scheduler event.  The effect cleanup (`cancel`) only sets
`isCancelled`; it does not clear a pending timer.  A firing timer invokes
`poll`, whose first statement issues the `getJobStatus` request — there
is no cancellation check before that await.  A resolving request runs the
tick body, in which every mutation is gated by `isCancelled`. -/
def loopStep (s : LoopState) : LoopEv → LoopState × List Obs
  | .cancel => ({ s with isCancelled := true }, [])
  | .timerFire =>
    if s.timerPending then
      ({ s with timerPending := false, inFlight := true }, [.request])
    else (s, [])
  | .respond o =>
    if s.inFlight then
      let r := pollTick s.isCancelled o s.activeJobId s.files
      ({ s with
          inFlight := false
          files := r.files
          timerPending :=
            match r.next with
            | .stop => s.timerPending
            | .reschedule _ => true },
       r.actions.map Obs.act ++
         (match r.next with
          | .stop => []
          | .reschedule d => [Obs.schedule d]))
    else (s, [])

/-- Run the loop over a list of scheduler events, collecting
observations. -/
def runLoop (s : LoopState) : List LoopEv → List Obs
  | [] => []
  | e :: rest =>
    let p := loopStep s e
    p.2 ++ runLoop p.1 rest

/-- Count of `getJobStatus` requests in an observation list. -/
def countRequests (obs : List Obs) : Nat :=
  (obs.filter (fun o => o == Obs.request)).length

/-- Holds when the observation list contains a state mutation: a
`setFiles`, toast, `setActiveJobId` or navigation, or schedules a new
timer. -/
def hasMutation (obs : List Obs) : Bool :=
  obs.any (fun o =>
    match o with
    | .act _ => true
    | .schedule _ => true
    | .request => false)

/-! ## Debounced history persistence lifecycle (Chat.tsx lines 198-232) -/

/-- State of one instance of the save-history effect: the debounce timer,
whether the primary write is awaiting its response, and the captured
inputs.  The effect schedules the timer only when the guard
`documentId && user?.id && messages.length > 2` passed. -/
structure SaveState where
  timerPending : Bool
  saveInFlight : Bool
  documentId : Option String
  userId : Option String
  msgs : List Message
  deriving Repr, DecidableEq

/-- Scheduler events for the save effect: the debounce timer fires, the
primary write resolves (`ok = false` is a rejection), or the effect
cleanup (`clearTimeout`) runs. -/
inductive SaveEv where
  | timerFire
  | resolve (ok : Bool)
  | cleanup
  deriving Repr, DecidableEq

/-- Store writes observable from the save effect. -/
inductive SaveObs where
  | primaryWrite (payload : List ChatHistoryItem)
  | fallbackWrite (payload : List Message)
  deriving Repr, DecidableEq

/-- One scheduler event of the save effect.  Cleanup clears the pending
timer (`clearTimeout(timer)`), but nothing gates the catch handler of a
write already in flight: its localStorage fallback write still happens
when the write rejects later. -/
def saveStep (s : SaveState) : SaveEv → SaveState × List SaveObs
  | .cleanup => ({ s with timerPending := false }, [])
  | .timerFire =>
    if s.timerPending then
      let history := primaryPayload s.msgs
      if history.length > 0 then
        ({ s with timerPending := false, saveInFlight := true },
         [.primaryWrite history])
      else ({ s with timerPending := false }, [])
    else (s, [])
  | .resolve ok =>
    if s.saveInFlight then
      if ok then ({ s with saveInFlight := false }, [])
      else ({ s with saveInFlight := false }, [.fallbackWrite (historyFilter s.msgs)])
    else (s, [])

/-- Run the save effect over scheduler events. -/
def runSave (s : SaveState) : List SaveEv → List SaveObs
  | [] => []
  | e :: rest =>
    let p := saveStep s e
    p.2 ++ runSave p.1 rest

/-! ## checkDocumentExists (legalBackend.ts lines 180-199) -/

/-- The parsed JSON body of the document-exists endpoint (fields the
client reads; `exists` is a Lean keyword, hence `exists_`). -/
structure ExistsBody where
  error : Option String
  message : Option String
  exists_ : Option Bool
  deriving Repr, DecidableEq

/-- A settled `fetch` response: HTTP `ok` flag, status code, and the
outcome of `response.json()`. -/
structure JsResponse (β : Type) where
  ok : Bool
  status : Nat
  json : Except String β

/-- Function `handleResponse` of `legalBackend.ts` for the exists endpoint: non-2xx
throws the `error`/`message` string of the body when present (else a generic
message); 2xx propagates the parsed JSON (or its parse failure). -/
def handleResponseExists (r : JsResponse ExistsBody) : Except String ExistsBody :=
  if !r.ok then
    .error
      (match r.json with
       | .ok data =>
         (match data.error with
          | some e => e
          | none =>
            match data.message with
            | some m => m
            | none => "Request failed with status " ++ toString r.status)
       | .error _ => "Request failed with status " ++ toString r.status)
  else r.json

/-- The body of the `try` block of `checkDocumentExists`: fetch outcome
(`.error` = transport rejection), then `handleResponse`, then
`data.exists ?? false`. -/
def checkBody (r : Except String (JsResponse ExistsBody)) : Except String Bool :=
  match r with
  | .error e => .error e
  | .ok resp =>
    match handleResponseExists resp with
    | .error e => .error e
    | .ok data => .ok (data.exists_.getD false)

/-- Function `checkDocumentExists` with its `try`/`catch`: any failure is caught
and becomes a normal `false` return. -/
def checkDocumentExistsE (r : Except String (JsResponse ExistsBody)) :
    Except String Bool :=
  match checkBody r with
  | .error _ => .ok false
  | .ok b => .ok b

/-- The boolean `checkDocumentExists` resolves with. -/
def checkDocumentExists (r : Except String (JsResponse ExistsBody)) : Bool :=
  match checkBody r with
  | .error _ => false
  | .ok b => b

/-! ## RichText rendering (Chat.tsx lines 545-727) -/

/-- Rendered block elements of `RichText` (payloads carry the raw text
handed to `formatInline`; styling is presentational and not modelled). -/
inductive Element where
  | codeBlock (text : String)
  | spacer
  | h2 (text : String)
  | h3 (text : String)
  | h4 (text : String)
  | hrule
  | bullet (text : String)
  | numbered (marker text : String)
  | para (text : String)
  deriving Repr, DecidableEq

/-- JS `String.trim` for the whitespace appearing in chat content. -/
def jsTrim (s : String) : String :=
  let ws := fun c : Char => c == ' ' || c == Char.ofNat 9 || c == Char.ofNat 10 || c == Char.ofNat 13
  String.mk (((s.data.dropWhile ws).reverse.dropWhile ws).reverse)

/-- JS `s.startsWith(pre)`. -/
def strStartsWith (s pre : String) : Bool := leadsWith pre.data s.data

/-- JS `s.slice(n)` (drop the first `n` characters). -/
def strDrop (s : String) (n : Nat) : String := String.mk (s.data.drop n)

/-- A line toggles the code fence iff its trimmed content starts with
three backticks. -/
def togglesFence (line : String) : Bool :=
  strStartsWith (jsTrim line) "```" 

/-- Function `flushCode`: emit the buffered lines as one code block joined by
newlines; nothing when the buffer is empty. -/
def flushCode (buf : List String) : List Element :=
  if buf.length = 0 then []
  else [Element.codeBlock (String.intercalate "\n" buf)]

/-- The decimal-digit prefix of a character list. -/
def takeDigits (cs : List Char) : List Char := cs.takeWhile (fun c => c.isDigit)

/-- JS regex test `^\d+\.\s+` on a single (newline-free) line. -/
def numberedTest (line : String) : Bool :=
  let ds := takeDigits line.data
  let rest := line.data.drop ds.length
  match ds, rest with
  | [], _ => false
  | _ :: _, c :: c2 :: _ => c == Char.ofNat 46 &&
      (c2 == ' ' || c2 == Char.ofNat 9 || c2 == Char.ofNat 12 || c2 == Char.ofNat 11 || c2 == Char.ofNat 13)
  | _ :: _, _ => false

/-- The capture groups of `^(\d+\.)\s+(.*)$`: the `N.` marker and the
text after the maximal whitespace run. -/
def numberedParts (line : String) : String × String :=
  let ws := fun c : Char => c == ' ' || c == Char.ofNat 9 || c == Char.ofNat 12 || c == Char.ofNat 11 || c == Char.ofNat 13
  let ds := takeDigits line.data
  let afterDot := (line.data.drop ds.length).drop 1
  (String.mk (ds ++ [Char.ofNat 46]), String.mk (afterDot.dropWhile ws))

/-- Dispatch of one non-fence, non-code, non-empty line. -/
def renderLine (line : String) : Element :=
  if strStartsWith line "## " then .h2 (strDrop line 3)
  else if strStartsWith line "### " then .h3 (strDrop line 4)
  else if strStartsWith line "#### " then .h4 (strDrop line 5)
  else if jsTrim line == "---" || jsTrim line == "***" then .hrule
  else if strStartsWith line "- " then .bullet (strDrop line 2)
  else if numberedTest line then .numbered (numberedParts line).1 (numberedParts line).2
  else .para line

/-- The `lines.forEach` body of `RichText` with its mutable state
(`inCode`, `codeBuffer`, `consecutiveEmptyLines`) made explicit, plus the
trailing flush of an unterminated fence. -/
def renderGo (inCode : Bool) (codeBuffer : List String) (consecEmpty : Nat) :
    List String → List Element
  | [] => if inCode then flushCode codeBuffer else []
  | line :: rest =>
    if togglesFence line then
      if inCode then flushCode codeBuffer ++ renderGo false [] consecEmpty rest
      else renderGo true codeBuffer consecEmpty rest
    else if inCode then renderGo true (codeBuffer ++ [line]) consecEmpty rest
    else if jsTrim line == "" then
      if consecEmpty + 1 = 1 then Element.spacer :: renderGo false codeBuffer (consecEmpty + 1) rest
      else renderGo false codeBuffer (consecEmpty + 1) rest
    else renderLine line :: renderGo false codeBuffer 0 rest

/-- Split a string at newlines, JS `content.split("\n")`. -/
def splitOnNewline (cs : List Char) : List (List Char) :=
  match cs with
  | [] => [[]]
  | c :: rest =>
    match splitOnNewline rest with
    | [] => [[]]
    | seg :: segs =>
      if c == Char.ofNat 10 then [] :: seg :: segs else (c :: seg) :: segs

/-- The element sequence `RichText` renders for a message content. -/
def richText (content : String) : List Element :=
  renderGo false [] 0 ((splitOnNewline content.data).map String.mk)

/-! ## Theorems -/

/-- The boolean test `riskLevel x == "high"` agrees with `70 < x`. -/
theorem riskLevel_high_bool (x : Int) : (riskLevel x == "high") = decide (70 < x) := by
  unfold riskLevel
  split_ifs with h1 h2 <;> simp_all

/-- The boolean test `riskLevel x == "low"` agrees with `x < 40`. -/
theorem riskLevel_low_bool (x : Int) : (riskLevel x == "low") = decide (x < 40) := by
  unfold riskLevel
  split_ifs with h1 h2 <;> simp_all
  omega

/-- C1, counterexample: the claim says a score of exactly 70 gets the
"high" tier, but the source computes `70 > 70 ? ... : 70 >= 40 ?
"medium" : ...`, so 70 is labelled "medium", and the dashboard likewise
does not count a completed document with score 70 as high-risk. -/
theorem C1_boundary70_counterexample :
    riskLevel 70 = "medium" ∧ ¬ riskLevel 70 = "high" ∧
    (getDashboardStats [⟨"completed", some 70⟩]).highRiskCount = 0 := by
  refine ⟨rfl, by decide, rfl⟩

/-- C1 (amended): scores strictly above 70 are "high", strictly below 40
are "low", and scores from 40 to 70 inclusive — in particular exactly 40
and exactly 70 — are "medium"; the dashboard counts a completed document
as high-risk exactly when its risk tier is "high" (score > 70) and as
safe exactly when its tier is "low" (score < 40), the same thresholds. -/
theorem C1_risk_tier_thresholds :
    (∀ s : Int,
      (riskLevel s = "high" ↔ 70 < s) ∧
      (riskLevel s = "medium" ↔ 40 ≤ s ∧ s ≤ 70) ∧
      (riskLevel s = "low" ↔ s < 40)) ∧
    (∀ docs : List Doc,
      (getDashboardStats docs).highRiskCount =
        ((docs.filter (fun d => d.status == "completed")).filter
          (fun d => riskLevel (d.risk_score.getD 0) == "high")).length ∧
      (getDashboardStats docs).safeCount =
        ((docs.filter (fun d => d.status == "completed")).filter
          (fun d => riskLevel (d.risk_score.getD 0) == "low")).length) := by
  constructor
  · intro s
    refine ⟨?_, ?_, ?_⟩ <;>
      (unfold riskLevel; split_ifs with h1 h2) <;>
      first
        | exact iff_of_true rfl (by omega)
        | exact iff_of_false (by decide) (by omega)
  · intro docs
    constructor <;>
      · simp only [getDashboardStats]
        congr 1
        apply List.filter_congr
        intro d _
        first
          | rw [riskLevel_high_bool]
          | rw [riskLevel_low_bool]

/-- The concrete document details used in the chat-view examples. -/
def exDetails : DocumentDetails := ⟨"contract.pdf", 45, 3, 10⟩

/-- C2 (code bug): when the primary history fetch succeeds with an empty
list, or when no user is signed in, `load` never calls `setMessages`, so
the transcript stays empty — the two synthetic bootstrap messages that
the claim (and the surrounding code and comments) expect are dropped.
With a non-empty history the transcript does begin with the two synthetic
messages, showing the slip is specific to the empty/no-user paths. -/
theorem C2_bootstrap_messages_dropped :
    loadMessages ⟨"doc-1", exDetails, "RAW REPORT", [], some "user-1", .ok [], none, "T0"⟩ = [] ∧
    loadMessages ⟨"doc-1", exDetails, "RAW REPORT", [], none, .ok [], none, "T0"⟩ = [] ∧
    (loadMessages ⟨"doc-1", exDetails, "RAW REPORT", [], some "user-1",
        .ok [⟨.user, "q1"⟩], none, "T0"⟩).take 2 =
      baseMessages ⟨"doc-1", exDetails, "RAW REPORT", [], some "user-1",
        .ok [⟨.user, "q1"⟩], none, "T0"⟩ := by
  refine ⟨rfl, rfl, rfl⟩

/-- C10: `checkDocumentExists` never throws — the `try`/`catch` turns
every transport error, non-2xx response and parse failure into a normal
`false` — and it resolves `true` exactly when the service responded 2xx
with a parsed body whose `exists` field is literally `true` (a missing
`exists` field also yields `false`). -/
theorem C10_checkDocumentExists_never_throws :
    ∀ r : Except String (JsResponse ExistsBody),
      checkDocumentExistsE r = .ok (checkDocumentExists r) ∧
      (checkDocumentExists r = true ↔
        ∃ resp body, r = .ok resp ∧ resp.ok = true ∧
          resp.json = .ok body ∧ body.exists_ = some true) := by
  intro r
  constructor
  · unfold checkDocumentExistsE checkDocumentExists
    cases h : checkBody r <;> simp
  · unfold checkDocumentExists checkBody handleResponseExists
    rcases r with e | ⟨ok, status, json⟩
    · simp
    · cases ok
      · simp
      · rcases json with e | body
        · simp
        · rcases hb : body.exists_ with _ | b
          · simp [hb]
          · cases b <;> simp [hb]

/-- Projections of `addFilesGo` tasks that do not depend on the
timestamp collapse to a plain map over the files. -/
theorem addFilesGo_map_congr {β : Type} (now : Nat → Nat) (h : UploadFile → β)
    (k : JsFile → β) (hk : ∀ (i : Nat) (f : JsFile), h (mkUploadTask (now i) f) = k f) :
    ∀ (i : Nat) (files : List JsFile),
      (addFilesGo now i files).map h = files.map k := by
  intro i files
  induction files generalizing i with
  | nil => rfl
  | cons f rest ih =>
    simp only [addFilesGo, List.map_cons, hk, ih]

/-- String append distributes over the character lists. -/
theorem stringDataAppend (a b : String) : (a ++ b).data = a.data ++ b.data := by
  cases a; cases b; rfl

/-- Left cancellation of string append. -/
theorem stringAppendLeftCancel (s : String) :
    ∀ a b : String, s ++ a = s ++ b → a = b := by
  intro a b h
  have h2 := congrArg String.data h
  rw [stringDataAppend, stringDataAppend] at h2
  have h3 := List.append_cancel_left h2
  cases a; cases b
  exact congrArg String.mk h3

/-- C7, counterexample: two files with the same name added in the same
millisecond (`Date.now()` identical) receive the same task id, so ids of
a single batch are not pairwise distinct. -/
theorem C7_duplicate_id_counterexample :
    ((addFiles (fun _ => 1000) [⟨"a.pdf", 5⟩, ⟨"a.pdf", 6⟩]).map (fun t => t.id)) =
      ["1000-a.pdf", "1000-a.pdf"] ∧
    ¬ ((addFiles (fun _ => 1000) [⟨"a.pdf", 5⟩, ⟨"a.pdf", 6⟩]).map (fun t => t.id)).Nodup := by
  exact ⟨rfl, by decide⟩

/-- C7 (amended): `addFiles` appends exactly one task per input file in
input order; a task is created in status "error" with an error message
exactly when the lowercased last-dot extension of the file is not `.pdf` or
its size strictly exceeds 20 MiB (exactly 20 MiB passes, 20 MiB + 1 byte
fails), and in "pending" otherwise; the ids of a batch whose calls to
`Date.now()` all return the same value are pairwise distinct provided the
file names are pairwise distinct (same-named files collide, as the
counterexample shows). -/
theorem C7_enqueue_validation :
    (∀ (now : Nat → Nat) (files : List JsFile),
        (addFiles now files).map (fun t => t.file) = files ∧
        (addFiles now files).map (fun t => t.status) =
          files.map (fun f => if (validateFile f).isSome then "error" else "pending") ∧
        (addFiles now files).map (fun t => t.error) = files.map validateFile) ∧
    (∀ f : JsFile, validateFile f = none ↔
        ("." ++ jsToLower (lastDotSegment f.name)) = ".pdf" ∧ f.size ≤ MAX_FILE_SIZE) ∧
    validateFile ⟨"a.pdf", 20 * 1024 * 1024⟩ = none ∧
    validateFile ⟨"a.pdf", 20 * 1024 * 1024 + 1⟩ = some "File too large. Maximum size is 20MB" ∧
    (∀ (c : Nat) (files : List JsFile),
        (files.map JsFile.name).Nodup →
        ((addFiles (fun _ => c) files).map (fun t => t.id)).Nodup) := by
  refine ⟨?_, ?_, rfl, rfl, ?_⟩
  · intro now files
    refine ⟨?_, ?_, ?_⟩
    · unfold addFiles
      rw [addFilesGo_map_congr now _ (fun f => f) (fun i f => rfl) 0 files]
      exact List.map_id files
    · unfold addFiles
      apply addFilesGo_map_congr
      intro i f
      rfl
    · unfold addFiles
      apply addFilesGo_map_congr
      intro i f
      rfl
  · intro f
    simp only [validateFile, SUPPORTED_FORMATS]
    constructor
    · intro h
      split_ifs at h with h1 h2
      refine ⟨?_, by unfold MAX_FILE_SIZE at h2 ⊢; omega⟩
      have h1' : ([".pdf"].contains ("." ++ jsToLower (lastDotSegment f.name))) = true := by
        revert h1
        cases hc : ([".pdf"].contains ("." ++ jsToLower (lastDotSegment f.name))) <;> simp
      simpa using h1'
    · rintro ⟨he, hs⟩
      rw [he]
      have hc : (!([".pdf"].contains ".pdf")) = false := by rfl
      rw [hc]
      simp only [Bool.false_eq_true, if_false]
      split_ifs with h2
      · omega
      · rfl
  · intro c files h
    have hcollapse :
        (addFiles (fun _ => c) files).map (fun t => t.id) =
          files.map (fun f => toString c ++ "-" ++ f.name) := by
      unfold addFiles
      apply addFilesGo_map_congr
      intro i f
      rfl
    rw [hcollapse, show (fun f : JsFile => toString c ++ "-" ++ f.name) =
        (fun n => toString c ++ "-" ++ n) ∘ JsFile.name from rfl, ← List.map_map]
    apply List.Nodup.map ?_ h
    intro a b hab
    have hab2 : (toString c ++ "-") ++ a = (toString c ++ "-") ++ b := hab
    exact stringAppendLeftCancel (toString c ++ "-") a b hab2

/-- C7, witness: a batch of two distinctly-named files, added at one
timestamp, gets distinct ids. -/
theorem C7_enqueue_validation_witness :
    (([⟨"a.pdf", 5⟩, ⟨"b.pdf", 6⟩] : List JsFile).map JsFile.name).Nodup ∧
    ((addFiles (fun _ => 1000) [⟨"a.pdf", 5⟩, ⟨"b.pdf", 6⟩]).map (fun t => t.id)).Nodup :=
  ⟨by decide, C7_enqueue_validation.2.2.2.2 1000 [⟨"a.pdf", 5⟩, ⟨"b.pdf", 6⟩] (by decide)⟩

/-- Example transcript: the two synthetic bootstrap messages followed by
one real user turn. -/
def exReportMsg : Message := ⟨"report-d", .assistant, "RAW REPORT", "t1", true⟩

/-- The synthetic summary message of the example transcript. -/
def exSummaryMsg : Message := ⟨"summary-d", .assistant, summaryText exDetails, "t1", false⟩

/-- A persisted-worthy user turn of the example transcript. -/
def exUserMsg : Message := ⟨"3", .user, "hi", "t3", false⟩

/-- The example transcript. -/
def exMsgs : List Message := [exReportMsg, exSummaryMsg, exUserMsg]

/-- C6, counterexample: when the primary write fails, the fallback cache
receives the filtered messages as full objects — the persisted entry
keeps its id "3" and timestamp "t3" — not the role-and-content-only
projection the claim describes. -/
theorem C6_fallback_projection_counterexample :
    saveHistoryStep (some "doc-1") (some "user-1") exMsgs true =
      SaveOutcome.savedFallback [exUserMsg] ∧
    exUserMsg.id = "3" ∧ exUserMsg.timestamp = "t3" ∧
    [exUserMsg] ≠ (primaryPayload exMsgs).map
      (fun h => { id := "", role := h.role, content := h.content,
                  timestamp := "", isReport := false : Message }) := by
  refine ⟨by decide, rfl, rfl, by decide⟩

/-- C6 (amended): with the guard satisfied (document id, signed-in user,
more than the two synthetic messages) and a non-empty filtered history,
the debounced save persists the non-report, non-marker subset projected
to role and content to the primary store; if that write fails, the same
filtered subset is written to the local fallback cache, but as full
message objects (id, timestamp, isReport retained) rather than projected;
in either case no persisted entry is a report or contains the summary
marker phrase. -/
theorem C6_history_persistence_filtering :
    (∀ (docId uid : String) (msgs : List Message) (primaryFails : Bool),
        msgs.length ≤ 2 →
        saveHistoryStep (some docId) (some uid) msgs primaryFails = .nothingSaved) ∧
    (∀ (docId uid : String) (msgs : List Message),
        2 < msgs.length → 0 < (primaryPayload msgs).length →
        saveHistoryStep (some docId) (some uid) msgs false =
          .savedPrimary (primaryPayload msgs) ∧
        saveHistoryStep (some docId) (some uid) msgs true =
          .savedFallback (historyFilter msgs)) ∧
    (∀ msgs : List Message, ∀ m ∈ historyFilter msgs,
        m.isReport = false ∧ strIncludes m.content summaryMarker = false) ∧
    (∀ msgs : List Message,
        primaryPayload msgs = (historyFilter msgs).map (fun m => ⟨m.role, m.content⟩)) := by
  refine ⟨?_, ?_, ?_, fun msgs => rfl⟩
  · intro docId uid msgs primaryFails h
    simp [saveHistoryStep, h]
  · intro docId uid msgs hlen hpay
    have h1 : ¬(msgs.length ≤ 2) := by omega
    constructor <;> simp [saveHistoryStep, h1, hpay]
  · intro msgs m hm
    have h2 := (List.mem_filter.mp hm).2
    simpa using h2

/-- C6, witness: on the example transcript the primary save stores the
projected user turn and the filtered history contains no report. -/
theorem C6_history_persistence_filtering_witness :
    (2 < exMsgs.length ∧ 0 < (primaryPayload exMsgs).length) ∧
    saveHistoryStep (some "doc-1") (some "user-1") exMsgs false =
      SaveOutcome.savedPrimary (primaryPayload exMsgs) ∧
    (exUserMsg ∈ historyFilter exMsgs ∧ exUserMsg.isReport = false) :=
  ⟨⟨by decide, by decide⟩,
   (C6_history_persistence_filtering.2.1 "doc-1" "user-1" exMsgs (by decide) (by decide)).1,
   ⟨by decide, (C6_history_persistence_filtering.2.2.1 exMsgs exUserMsg (by decide)).1⟩⟩

/-- Poll responses used in the concrete polling scenarios. -/
def exProc10 : JobStatusResponse := ⟨"job-1", .processing, some 10, none, none, none⟩

/-- Second `processing` response of the three-response scenario. -/
def exProc55 : JobStatusResponse := ⟨"job-1", .processing, some 55, none, none, none⟩

/-- Terminal `completed` response carrying `document_id = "doc-1"`. -/
def exDone : JobStatusResponse := ⟨"job-1", .completed, some 100, none, some ⟨"doc-1"⟩, none⟩

/-- Terminal `failed` response carrying `error = "OCR failed"`. -/
def exFailedOCR : JobStatusResponse := ⟨"job-1", .failed, none, none, none, some "OCR failed"⟩

/-- The in-flight upload task the poll loop mutates. -/
def exTask : UploadFile :=
  { id := "100-a.pdf", file := ⟨"a.pdf", 5⟩, progress := 5, status := "processing",
    error := none, jobId := some "job-1", jobStatus := none }

/-- C3: each uncancelled poll tick resolves exactly one of three ways —
completed with a truthy result document id stops polling, surfaces the
success toast and navigates to the chat view of that document; failed
stops polling with the destructive toast carrying the service error (or
the generic fallback); pending/processing schedules exactly one next tick
— and on the three-response sequence of the spec exactly three requests are
issued (no fourth poll) with navigation to doc-1, while the failed
response with error "OCR failed" leaves the task in status "error"
carrying that message. -/
theorem C3_poll_tick_trichotomy :
    (∀ (st : JobStatusResponse) (jobId : String) (files : List UploadFile) (docId : String),
        st.status = .completed → truthyDocId st.result = some docId →
        (pollTick false (.success st) jobId files).next = .stop ∧
        (pollTick false (.success st) jobId files).actions =
          [.setFiles (applyStatus jobId st files),
           .toastSuccess "Analysis complete" "Opening interactive analysis and chat.",
           .setActiveJob none,
           .navigate ("/chat/" ++ docId)]) ∧
    (∀ (st : JobStatusResponse) (jobId : String) (files : List UploadFile),
        st.status = .failed →
        (pollTick false (.success st) jobId files).next = .stop ∧
        (pollTick false (.success st) jobId files).actions =
          [.setFiles (applyStatus jobId st files),
           .toastError "Analysis failed" (jsOrElse st.error "An error occurred during analysis."),
           .setActiveJob none]) ∧
    (∀ (st : JobStatusResponse) (jobId : String) (files : List UploadFile),
        (st.status = .pending ∨ st.status = .processing) →
        (pollTick false (.success st) jobId files).next = .reschedule 2000 ∧
        (pollTick false (.success st) jobId files).actions =
          [.setFiles (applyStatus jobId st files)]) ∧
    (runPolling "job-1" [exTask] [.success exProc10, .success exProc55, .success exDone]).1 = 3 ∧
    (runPolling "job-1" [exTask] [.success exProc10, .success exProc55, .success exDone]).2.2 = false ∧
    Action.navigate "/chat/doc-1" ∈
      (runPolling "job-1" [exTask] [.success exProc10, .success exProc55, .success exDone]).2.1 ∧
    (pollTick false (.success exFailedOCR) "job-1" [exTask]).next = .stop ∧
    (pollTick false (.success exFailedOCR) "job-1" [exTask]).files.map (fun t => t.status) =
      ["error"] ∧
    (pollTick false (.success exFailedOCR) "job-1" [exTask]).files.map (fun t => t.jobStatus) =
      [some exFailedOCR] ∧
    Action.toastError "Analysis failed" "OCR failed" ∈
      (pollTick false (.success exFailedOCR) "job-1" [exTask]).actions := by
  refine ⟨?_, ?_, ?_, by decide, by decide, by decide, by decide, by decide, by decide, by decide⟩
  · intro st jobId files docId h1 h2
    constructor <;> simp [pollTick, h1, h2]
  · intro st jobId files h1
    constructor <;> simp [pollTick, h1]
  · intro st jobId files h1
    rcases h1 with h1 | h1 <;> (constructor <;> simp [pollTick, h1])

/-- C3, witness: the trichotomy applied to the concrete completed, failed
and processing responses. -/
theorem C3_poll_tick_trichotomy_witness :
    (exDone.status = JobState.completed ∧ truthyDocId exDone.result = some "doc-1" ∧
      exFailedOCR.status = JobState.failed ∧ exProc10.status = JobState.processing) ∧
    (pollTick false (.success exDone) "job-1" [exTask]).next = .stop ∧
    (pollTick false (.success exFailedOCR) "job-1" [exTask]).next = .stop ∧
    (pollTick false (.success exProc10) "job-1" [exTask]).next = .reschedule 2000 :=
  ⟨⟨rfl, rfl, rfl, rfl⟩,
   (C3_poll_tick_trichotomy.1 exDone "job-1" [exTask] "doc-1" rfl rfl).1,
   (C3_poll_tick_trichotomy.2.1 exFailedOCR "job-1" [exTask] rfl).1,
   (C3_poll_tick_trichotomy.2.2.1 exProc10 "job-1" [exTask] (Or.inr rfl)).1⟩

/-- C5, counterexample: a rejected status request (polling not
cancelled) produces a user-visible destructive toast — the transport
error *is* surfaced to the user, contrary to the claimed "logged/retried,
not surfaced". -/
theorem C5_transport_toast_counterexample :
    (pollTick false (.failure (some "network down")) "job-1" [exTask]).actions =
      [Action.toastError "Error" "network down"] ∧
    (pollTick false (.failure (some "network down")) "job-1" [exTask]).actions ≠ [] := by
  refine ⟨by decide, by decide⟩

/-- C5 (amended): an uncancelled transport error never abandons the job
nor marks the task "error" — the task list is left untouched and the only
effect is a destructive retry toast (so the error *is* surfaced as a
notification, though not as task failure) — and the next poll is
rescheduled after 4000 ms versus 2000 ms after a successful non-terminal
response; after two consecutive rejections followed by "processing",
polling is still active with exactly three requests issued. -/
theorem C5_retry_backoff :
    (∀ (e : Option String) (jobId : String) (files : List UploadFile),
        (pollTick false (.failure e) jobId files).next = .reschedule 4000 ∧
        (pollTick false (.failure e) jobId files).files = files ∧
        (pollTick false (.failure e) jobId files).actions =
          [Action.toastError "Error"
            (jsOrElse e "Failed to fetch analysis status. Retrying...")]) ∧
    (∀ (st : JobStatusResponse) (jobId : String) (files : List UploadFile),
        (st.status = .pending ∨ st.status = .processing) →
        (pollTick false (.success st) jobId files).next = .reschedule 2000) ∧
    (runPolling "job-1" [exTask] [.failure none, .failure none, .success exProc10]).1 = 3 ∧
    (runPolling "job-1" [exTask] [.failure none, .failure none, .success exProc10]).2.2 = true := by
  refine ⟨?_, ?_, by decide, by decide⟩
  · intro e jobId files
    refine ⟨rfl, rfl, rfl⟩
  · intro st jobId files h1
    rcases h1 with h1 | h1 <;> simp [pollTick, h1]

/-- C5, witness: backoff applied to a concrete rejection and a concrete
processing response. -/
theorem C5_retry_backoff_witness :
    exProc10.status = JobState.processing ∧
    (pollTick false (.failure (some "boom")) "job-1" [exTask]).next = .reschedule 4000 ∧
    (pollTick false (.success exProc10) "job-1" [exTask]).next = .reschedule 2000 :=
  ⟨rfl,
   (C5_retry_backoff.1 (some "boom") "job-1" [exTask]).1,
   C5_retry_backoff.2.1 exProc10 "job-1" [exTask] (Or.inr rfl)⟩

/-- With the cancellation flag set, a resolving tick mutates nothing and
schedules nothing. -/
theorem pollTick_cancelled (o : PollOutcome) (jobId : String) (files : List UploadFile) :
    pollTick true o jobId files = ⟨files, [], .stop⟩ := by
  cases o <;> rfl

/-- Predicate `hasMutation` distributes over append. -/
theorem hasMutation_append (a b : List Obs) :
    hasMutation (a ++ b) = (hasMutation a || hasMutation b) := by
  unfold hasMutation
  exact List.any_append

/-- Counter `countRequests` distributes over append. -/
theorem countRequests_append (a b : List Obs) :
    countRequests (a ++ b) = countRequests a + countRequests b := by
  unfold countRequests
  rw [List.filter_append, List.length_append]

/-- After cancellation the poll loop emits no mutation and at most the
one request of a timer that was already pending at cancellation. -/
theorem runLoop_cancelled (evs : List LoopEv) :
    ∀ s : LoopState, s.isCancelled = true →
      hasMutation (runLoop s evs) = false ∧
      countRequests (runLoop s evs) ≤ (if s.timerPending then 1 else 0) := by
  induction evs with
  | nil =>
    intro s h
    exact ⟨rfl, by simp [runLoop, countRequests]⟩
  | cons e rest ih =>
    intro s h
    cases e with
    | cancel =>
      have hstep : loopStep s .cancel = ({ s with isCancelled := true }, []) := rfl
      have h2 := ih { s with isCancelled := true } rfl
      simpa [runLoop, hstep] using h2
    | timerFire =>
      by_cases hp : s.timerPending
      · have hstep : loopStep s .timerFire =
            ({ s with timerPending := false, inFlight := true }, [.request]) := by
          simp [loopStep, hp]
        have h2 := ih { s with timerPending := false, inFlight := true } h
        simp only [runLoop, hstep]
        constructor
        · rw [hasMutation_append, h2.1]
          rfl
        · rw [countRequests_append]
          have h3 := h2.2
          simp only [if_neg (by exact fun hc => Bool.false_ne_true hc)] at h3
          simp only [hp, if_pos]
          have h4 : countRequests [Obs.request] = 1 := rfl
          omega
      · have hstep : loopStep s .timerFire = (s, []) := by
          simp [loopStep, hp]
        have h2 := ih s h
        simpa [runLoop, hstep] using h2
    | respond o =>
      by_cases hf : s.inFlight
      · have hstep : loopStep s (.respond o) =
            (({ s with inFlight := false } : LoopState), ([] : List Obs)) := by
          simp [loopStep, hf, h, pollTick_cancelled]
        have h2 := ih ({ s with inFlight := false } : LoopState) h
        simpa [runLoop, hstep] using h2
      · have hstep : loopStep s (.respond o) = (s, []) := by
          simp [loopStep, hf]
        have h2 := ih s h
        simpa [runLoop, hstep] using h2

/-- If the cleanup of the save effect already cleared the debounce timer and
no primary write was in flight, no store write ever happens. -/
theorem runSave_cleaned (evs : List SaveEv) :
    ∀ s : SaveState, s.timerPending = false → s.saveInFlight = false →
      runSave s evs = [] := by
  induction evs with
  | nil => intro s h1 h2; rfl
  | cons e rest ih =>
    intro s h1 h2
    cases e with
    | cleanup =>
      have hstep : saveStep s .cleanup = ({ s with timerPending := false }, []) := rfl
      have h3 := ih { s with timerPending := false } rfl h2
      simpa [runSave, hstep] using h3
    | timerFire =>
      have hstep : saveStep s .timerFire = (s, []) := by
        simp [saveStep, h1]
      have h3 := ih s h1 h2
      simpa [runSave, hstep] using h3
    | resolve ok =>
      have hstep : saveStep s (.resolve ok) = (s, []) := by
        simp [saveStep, h2]
      have h3 := ih s h1 h2
      simpa [runSave, hstep] using h3

/-- C4, counterexample: the cleanup of the poll effect sets the cancellation
flag but does not clear a pending `setTimeout`; starting from a state
with a scheduled tick, the trace "cleanup runs, then the timer fires"
still issues one `getJobStatus` request after teardown — the claimed "no
poll request is issued" after teardown is false. -/
theorem C4_post_cancel_request_counterexample :
    runLoop ⟨false, true, false, "job-1", [exTask]⟩ [.cancel, .timerFire] = [Obs.request] ∧
    countRequests (runLoop ⟨false, true, false, "job-1", [exTask]⟩ [.cancel, .timerFire]) = 1 := by
  refine ⟨rfl, rfl⟩

/-- C4 (amended): once the cancellation flag is set, no task-list update,
notification, navigation or new timer ever arises from the poll loop —
every post-await mutation is gated — but a timer already pending at
teardown (it is not cleared) may still fire and issue at most one final
status request, whose response is then discarded; the debounced history
persistence performs no store write at all when its cleanup cleared the
debounce timer before it fired and no write was already in flight. -/
theorem C4_cancellation_gating :
    (∀ (s : LoopState) (evs : List LoopEv), s.isCancelled = true →
        hasMutation (runLoop s evs) = false ∧
        countRequests (runLoop s evs) ≤ (if s.timerPending then 1 else 0)) ∧
    (∀ s : LoopState,
        (loopStep s .cancel).1.isCancelled = true ∧ (loopStep s .cancel).2 = []) ∧
    (∀ (s : SaveState) (evs : List SaveEv),
        s.timerPending = false → s.saveInFlight = false → runSave s evs = []) :=
  ⟨fun s evs h => runLoop_cancelled evs s h,
   fun _ => ⟨rfl, rfl⟩,
   fun s evs h1 h2 => runSave_cleaned evs s h1 h2⟩

/-- C4, witness: a cancelled loop processing a fired timer and a late
response mutates nothing, and a cleaned-up save effect writes nothing. -/
theorem C4_cancellation_gating_witness :
    hasMutation (runLoop ⟨true, true, false, "job-1", [exTask]⟩
      [.timerFire, .respond (.success exProc10)]) = false ∧
    runSave ⟨false, false, some "doc-1", some "user-1", exMsgs⟩
      [.timerFire, .resolve false] = [] :=
  ⟨(C4_cancellation_gating.1 ⟨true, true, false, "job-1", [exTask]⟩
      [.timerFire, .respond (.success exProc10)] rfl).1,
   C4_cancellation_gating.2.2 ⟨false, false, some "doc-1", some "user-1", exMsgs⟩
      [.timerFire, .resolve false] rfl rfl⟩

/-- Two dedup keys coincide exactly when the roles and the first 100
content characters coincide (the `::` separator and the fixed role
strings make the key injective in the pair). -/
theorem dedupKey_eq_iff (m m' : Message) :
    dedupKey m = dedupKey m' ↔
      (m.role = m'.role ∧ m.content.data.take 100 = m'.content.data.take 100) := by
  have hcross : ∀ (x y : String), ¬("user" ++ "::" ++ x = "assistant" ++ "::" ++ y) := by
    intro x y h
    have hd := congrArg String.data h
    simp only [stringDataAppend] at hd
    have h1 : "user".data = ['u', 's', 'e', 'r'] := rfl
    have h2 : "assistant".data = ['a', 's', 's', 'i', 's', 't', 'a', 'n', 't'] := rfl
    have h3 : "::".data = [':', ':'] := rfl
    simp only [h1, h2, h3, List.cons_append, List.nil_append, List.cons.injEq] at hd
    exact absurd hd.1 (by decide)
  have hsame : ∀ (p x y : String), (p ++ "::" ++ x = p ++ "::" ++ y) ↔ x = y := by
    intro p x y
    constructor
    · intro h
      exact stringAppendLeftCancel (p ++ "::") x y h
    · intro h
      rw [h]
  unfold dedupKey strSlice
  cases m.role <;> cases m'.role <;> simp only [Role.str]
  · rw [hsame]
    exact ⟨fun h => ⟨trivial, congrArg String.data h⟩, fun h => congrArg String.mk h.2⟩
  · simp only [hcross _ _, false_iff]
    rintro ⟨h, -⟩
    cases h
  · constructor
    · intro h
      exact absurd h.symm (hcross _ _)
    · rintro ⟨h, -⟩
      cases h
  · rw [hsame]
    exact ⟨fun h => ⟨trivial, congrArg String.data h⟩, fun h => congrArg String.mk h.2⟩

/-- Bool version of `dedupKey_eq_iff`, matching the filter predicate of
`keepFirstByKey`. -/
theorem dedupKey_beq (x m : Message) :
    (x.role == m.role && (x.content.data.take 100 == m.content.data.take 100)) =
      (dedupKey x == dedupKey m) := by
  rw [Bool.eq_iff_iff]
  simp [dedupKey_eq_iff]

/-- Running `dedupGo` on any seen-set computes `keepFirstByKey` of the unseen
part. -/
theorem dedupGo_eq_keepFirst (msgs : List Message) :
    ∀ seen : List String,
      dedupGo seen msgs =
        keepFirstByKey (msgs.filter (fun m => !(seen.contains (dedupKey m)))) := by
  induction msgs with
  | nil => intro seen; simp [dedupGo, keepFirstByKey]
  | cons m rest ih =>
    intro seen
    by_cases hc : seen.contains (dedupKey m)
    · simp only [dedupGo, hc, if_true, List.filter_cons, Bool.not_true,
        Bool.false_eq_true, if_false]
      exact ih seen
    · have hcf : seen.contains (dedupKey m) = false := by
        revert hc; cases seen.contains (dedupKey m) <;> simp
      simp only [dedupGo, hcf, Bool.false_eq_true, if_false, List.filter_cons,
        Bool.not_false, if_true]
      rw [ih (dedupKey m :: seen)]
      simp only [keepFirstByKey, List.cons.injEq, true_and]
      congr 1
      rw [List.filter_filter]
      apply List.filter_congr
      intro x _
      rw [dedupKey_beq]
      simp only [List.contains_cons]
      cases hx : (dedupKey x == dedupKey m) <;>
        cases hy : seen.contains (dedupKey x) <;> rfl

/-- Running `dedupGo` keeps a subsequence of its input. -/
theorem dedupGo_sublist (msgs : List Message) :
    ∀ seen : List String, List.Sublist (dedupGo seen msgs) msgs := by
  induction msgs with
  | nil => intro seen; exact List.Sublist.refl []
  | cons m rest ih =>
    intro seen
    by_cases hc : seen.contains (dedupKey m)
    · simp only [dedupGo, hc, if_true]
      exact List.Sublist.cons m (ih seen)
    · have hcf : seen.contains (dedupKey m) = false := by
        revert hc; cases seen.contains (dedupKey m) <;> simp
      simp only [dedupGo, hcf, Bool.false_eq_true, if_false]
      exact List.Sublist.cons₂ m (ih (dedupKey m :: seen))

/-- A 101-character content sharing its first 100 characters with
`exLongY` below. -/
def exLongX : Message :=
  ⟨"1", .user, String.mk (List.replicate 100 'a' ++ ['X']), "t1", false⟩

/-- Same first 100 characters as `exLongX`, different 101st. -/
def exLongY : Message :=
  ⟨"2", .user, String.mk (List.replicate 100 'a' ++ ['Y']), "t2", false⟩

/-- C8: `deduplicateMessages` equals the keep-the-first-of-each-key
filter — first occurrence wins and relative order is preserved (the
result is a subsequence of the input) — where the key identifies exactly
the pairs (role, first 100 content characters); two messages sharing the
prefix collapse to the earliest, messages differing in role or prefix are
both kept. -/
theorem C8_dedup_first_occurrence_wins :
    (∀ msgs : List Message, deduplicateMessages msgs = keepFirstByKey msgs) ∧
    (∀ msgs : List Message, List.Sublist (deduplicateMessages msgs) msgs) ∧
    (∀ m m' : Message, dedupKey m = dedupKey m' ↔
        (m.role = m'.role ∧ m.content.data.take 100 = m'.content.data.take 100)) ∧
    deduplicateMessages [exLongX, exLongY] = [exLongX] ∧
    deduplicateMessages [⟨"1", .user, "same", "t1", false⟩,
        ⟨"2", .assistant, "same", "t2", false⟩] =
      [⟨"1", .user, "same", "t1", false⟩, ⟨"2", .assistant, "same", "t2", false⟩] := by
  refine ⟨?_, ?_, dedupKey_eq_iff, by decide, by decide⟩
  · intro msgs
    unfold deduplicateMessages
    rw [dedupGo_eq_keepFirst msgs []]
    congr 1
    simp
  · intro msgs
    exact dedupGo_sublist msgs []

/-- While inside a fence, non-toggling lines accumulate into the buffer;
a toggling line closes the fence and flushes the buffer plus the
accumulated lines. -/
theorem renderGo_close_fence (body : List String) :
    ∀ (buf : List String) (k : Nat) (closeL : String) (rest : List String),
      (∀ l ∈ body, togglesFence l = false) → togglesFence closeL = true →
      renderGo true buf k (body ++ closeL :: rest) =
        flushCode (buf ++ body) ++ renderGo false [] k rest := by
  induction body with
  | nil =>
    intro buf k closeL rest hb hc
    simp only [List.nil_append, List.append_nil]
    simp [renderGo, hc]
  | cons l body' ih =>
    intro buf k closeL rest hb hc
    have hl : togglesFence l = false := hb l (List.mem_cons_self l _)
    simp only [List.cons_append]
    rw [show renderGo true buf k (l :: (body' ++ closeL :: rest)) =
        renderGo true (buf ++ [l]) k (body' ++ closeL :: rest) by
      simp [renderGo, hl]]
    rw [ih (buf ++ [l]) k closeL rest (fun x hx => hb x (List.mem_cons_of_mem l hx)) hc]
    rw [List.append_assoc]
    rfl

/-- While inside a fence, reaching the end of input flushes the buffer
plus the accumulated lines (the unterminated-fence flush). -/
theorem renderGo_unterminated (body : List String) :
    ∀ (buf : List String) (k : Nat),
      (∀ l ∈ body, togglesFence l = false) →
      renderGo true buf k body = flushCode (buf ++ body) := by
  induction body with
  | nil =>
    intro buf k hb
    simp [renderGo]
  | cons l body' ih =>
    intro buf k hb
    have hl : togglesFence l = false := hb l (List.mem_cons_self l _)
    rw [show renderGo true buf k (l :: body') =
        renderGo true (buf ++ [l]) k body' by simp [renderGo, hl]]
    rw [ih (buf ++ [l]) k (fun x hx => hb x (List.mem_cons_of_mem l hx))]
    rw [List.append_assoc]
    rfl

/-- C9, counterexample: the fence is toggled by `line.trim().startsWith`,
not by equality with three backticks — the info-string line opens a fence
even though its trimmed content is not exactly three backticks, so the
following text renders as a code block. -/
theorem C9_fence_info_string_counterexample :
    richText "```js\nhello" = [Element.codeBlock "hello"] ∧
    jsTrim "```js" ≠ "```" := by
  refine ⟨rfl, by decide⟩

/-- C9 (amended): any line whose *trimmed content starts with* three
backticks (in particular every line whose trimmed content is exactly
three backticks, but also info-string lines) toggles the fence, and no
other line does; the lines between an opening and a closing toggle are
accumulated verbatim and emitted as a single newline-joined code block at
the closing toggle (no block when nothing was accumulated), and an
unterminated trailing fence still flushes whatever was buffered at end of
input. -/
theorem C9_fence_rendering :
    (∀ (k : Nat) (openL closeL : String) (body rest : List String),
        togglesFence openL = true → togglesFence closeL = true →
        (∀ l ∈ body, togglesFence l = false) →
        renderGo false [] k (openL :: (body ++ closeL :: rest)) =
          flushCode body ++ renderGo false [] k rest) ∧
    (∀ (k : Nat) (openL : String) (body : List String),
        togglesFence openL = true → (∀ l ∈ body, togglesFence l = false) →
        renderGo false [] k (openL :: body) = flushCode body) ∧
    (∀ body : List String, body ≠ [] →
        flushCode body = [Element.codeBlock (String.intercalate "\n" body)]) ∧
    (∀ line : String, jsTrim line = "```" → togglesFence line = true) ∧
    (∀ (k : Nat) (line : String) (rest : List String),
        togglesFence line = false → (jsTrim line == "") = false →
        renderGo false [] k (line :: rest) =
          renderLine line :: renderGo false [] 0 rest) := by
  refine ⟨?_, ?_, ?_, ?_, ?_⟩
  · intro k openL closeL body rest ho hc hb
    rw [show renderGo false [] k (openL :: (body ++ closeL :: rest)) =
        renderGo true [] k (body ++ closeL :: rest) by simp [renderGo, ho]]
    rw [renderGo_close_fence body [] k closeL rest hb hc]
    rw [List.nil_append]
  · intro k openL body ho hb
    rw [show renderGo false [] k (openL :: body) =
        renderGo true [] k body by simp [renderGo, ho]]
    rw [renderGo_unterminated body [] k hb]
    rw [List.nil_append]
  · intro body hb
    unfold flushCode
    rw [if_neg]
    simpa using hb
  · intro line h
    unfold togglesFence
    rw [h]
    rfl
  · intro k line rest h1 h2
    simp [renderGo, h1, h2]

/-- C9, witness: a concrete open/body/close sequence renders the body as
one code block, and the bare fence line toggles. -/
theorem C9_fence_rendering_witness :
    (togglesFence "```" = true ∧ togglesFence "code here" = false ∧
      jsTrim "```" = "```") ∧
    renderGo false [] 0 ["```", "code here", "```", "tail"] =
      flushCode ["code here"] ++ renderGo false [] 0 ["tail"] ∧
    renderGo false [] 0 ["```", "buffered"] = flushCode ["buffered"] :=
  ⟨⟨rfl, rfl, rfl⟩,
   C9_fence_rendering.1 0 "```" "```" ["code here"] ["tail"] rfl rfl
     (by decide),
   C9_fence_rendering.2.1 0 "```" ["buffered"] rfl (by decide)⟩

end LegalMind
